import Mathlib

/-!
Shallow embedding of the Tier Routing Decision Engine of app.py:
ZIP-to-tier classification, business-hours gate, per-tier hourly rate
limiter, fallback-chain resolver, and the outcome recorder / analytics
aggregator, together with theorems settling the specification claims.

Conventions of the embedding:
ambient mutable state (the module-level dictionaries) is passed
explicitly; the current wall-clock hour and the per-timezone local hour
are parameters; fallible dictionary lookups return through an error
flag; the while loop of the resolver takes explicit fuel.
-/

/-- The three tier identifiers of TIER_CONFIG. -/
inductive Tier
  | tier_1
  | tier_2
  | tier_3
deriving DecidableEq, Fintype

/-- The hours sub-dictionary of a tier configuration entry. -/
structure BusinessHours where
  hstart : Nat
  hend : Nat
deriving DecidableEq

/-- One entry of TIER_CONFIG. -/
structure TierConfigEntry where
  offer_id : String
  hours : BusinessHours
  timezone : String
  max_calls_per_hour : Nat
  fallback_tier : Option Tier
deriving DecidableEq

/-- TIER_CONFIG, the static tier registry of app.py lines 23-45. -/
def TIER_CONFIG : Tier → TierConfigEntry
  | .tier_1 => { offer_id := "11558", hours := { hstart := 9, hend := 21 },
                 timezone := "US/Eastern", max_calls_per_hour := 100,
                 fallback_tier := some Tier.tier_2 }
  | .tier_2 => { offer_id := "11558", hours := { hstart := 8, hend := 22 },
                 timezone := "US/Central", max_calls_per_hour := 80,
                 fallback_tier := some Tier.tier_3 }
  | .tier_3 => { offer_id := "11558", hours := { hstart := 7, hend := 23 },
                 timezone := "US/Pacific", max_calls_per_hour := 60,
                 fallback_tier := none }

/-- The string key under which a tier is stored in the dictionaries. -/
def tierName : Tier → String
  | .tier_1 => "tier_1"
  | .tier_2 => "tier_2"
  | .tier_3 => "tier_3"

/-- The fallback_tier field of the configuration of a tier. -/
def tierFallback (t : Tier) : Option Tier :=
  (TIER_CONFIG t).fallback_tier

/-- is_business_hours (app.py lines 132-143).  The parameter localHour
gives the current hour in a named timezone; none models a failure of
timezone resolution (pytz raising), in which case the except branch
returns True (fail open). -/
def is_business_hours (localHour : String → Option Nat) (tier : Tier) : Bool :=
  match localHour (TIER_CONFIG tier).timezone with
  | none => true
  | some current_hour =>
      decide ((TIER_CONFIG tier).hours.hstart ≤ current_hour ∧
              current_hour < (TIER_CONFIG tier).hours.hend)

/-- The per-(tier-key, hour) call counters, _call_counts of app.py line
53.  Keys are strings as in the source (a defaultdict over arbitrary
keys with default 0); the map is total with default 0, which abstracts
away defaultdict key materialisation. -/
def RateCounts : Type := String → Nat → Nat

/-- check_rate_limit (app.py lines 145-155).  It only reads the
counters; the returned state component records that the dictionaries
are not mutated. -/
def check_rate_limit (counts : RateCounts) (nowHour : Nat) (tier : Tier) :
    Bool × RateCounts :=
  let current_count := counts (tierName tier) nowHour
  let max_calls := (TIER_CONFIG tier).max_calls_per_hour
  (decide (current_count < max_calls), counts)

/-- The counter increment performed at app.py line 189:
_call_counts[tier][hour] += 1. -/
def commit_rate (counts : RateCounts) (key : String) (nowHour : Nat) :
    RateCounts :=
  fun k h => if k = key ∧ h = nowHour then counts k h + 1 else counts k h

/-- The while loop of get_best_tier (app.py lines 164-169), with
explicit fuel; none means the fuel ran out while the loop was still
running. -/
def get_best_tier_loop (cfg : Tier → Option Tier) (bh rl : Tier → Bool)
    (original_tier : Tier) : Nat → Tier → Option (Tier × Bool)
  | 0, _ => none
  | fuel + 1, current_tier =>
      match cfg current_tier with
      | none => some (original_tier, false)
      | some fallback_tier =>
          if bh fallback_tier && rl fallback_tier then
            some (fallback_tier, true)
          else
            get_best_tier_loop cfg bh rl original_tier fuel fallback_tier

/-- get_best_tier (app.py lines 157-172), generalised over the fallback
configuration; bh and rl are the business-hours and rate-limit gates as
evaluated against the ambient state of one request. -/
def get_best_tier_gen (cfg : Tier → Option Tier) (bh rl : Tier → Bool)
    (fuel : Nat) (original_tier : Tier) : Option (Tier × Bool) :=
  if bh original_tier && rl original_tier then
    some (original_tier, false)
  else
    get_best_tier_loop cfg bh rl original_tier fuel original_tier

/-- get_best_tier over the concrete TIER_CONFIG; fuel 3 is enough for
the three-tier chain. -/
def get_best_tier (bh rl : Tier → Bool) (original_tier : Tier) :
    Option (Tier × Bool) :=
  get_best_tier_gen tierFallback bh rl 3 original_tier

/-- The sequence of candidate tiers that get_best_tier tests, in order:
the original tier followed by its fallback chain. -/
def fallback_chain (cfg : Tier → Option Tier) : Nat → Tier → List Tier
  | 0, t => [t]
  | fuel + 1, t =>
      t :: (match cfg t with
            | none => []
            | some fb => fallback_chain cfg fuel fb)

/-- Iterating the fallback links k times from a tier (none once the
chain has ended). -/
def iterFb (cfg : Tier → Option Tier) : Nat → Tier → Option Tier
  | 0, t => some t
  | k + 1, t =>
      match cfg t with
      | none => none
      | some u => iterFb cfg k u

/-- Acyclicity of the fallback configuration: no tier reaches itself by
following fallback links.  On a three-element tier type every cycle
passes through a cycle of length at most three, so bounding the walk at
three steps is exhaustive. -/
def AcyclicFb (cfg : Tier → Option Tier) : Prop :=
  ∀ t : Tier, ∀ k : Nat, k < 3 → iterFb cfg (k + 1) t ≠ some t

instance (cfg : Tier → Option Tier) : Decidable (AcyclicFb cfg) := by
  unfold AcyclicFb
  infer_instance

/-- The call_data dictionary built by handle_call.  Keys that are not
present in the dictionary until a later statement assigns them are
Option-valued (none is an absent key, whose lookup raises KeyError). -/
structure CallData where
  status : String
  fallback_used : Bool := false
  business_hours_check : Bool := true
  rate_limit_check : Bool := true
  caller_id : Option String := none
  zip_code : Option String := none
  tier : Option String := none
  offer_id : Option String := none
  marketcall_id : Option String := none
deriving DecidableEq

/-- The _analytics aggregate dictionary (app.py lines 54-61); the
defaultdict sub-maps are total maps with default 0. -/
structure Analytics where
  total_calls : Nat := 0
  successful_calls : Nat := 0
  failed_calls : Nat := 0
  tier_stats : String → Nat := fun _ => 0
  hourly_stats : Nat → Nat := fun _ => 0
  zip_stats : String → Nat := fun _ => 0

/-- The module-level mutable state of the engine: _analytics,
_call_counts and _call_history. -/
structure SysState where
  analytics : Analytics := {}
  call_counts : RateCounts := fun _ _ => 0
  call_history : List CallData := []

/-- Appending to a collections.deque with a maximum length: the element
goes on the right and elements fall off the left once the length would
exceed maxlen. -/
def deque_append {α : Type} (maxlen : Nat) (h : List α) (x : α) : List α :=
  let grown := h ++ [x]
  if maxlen < grown.length then grown.drop (grown.length - maxlen) else grown

/-- Capacity of _call_history (app.py line 52). -/
def HISTORY_MAX : Nat := 10000

/-- The recent-history read of the dashboard (app.py lines 341-342):
the last n records of the buffer, reversed so the newest comes first. -/
def recent_calls {α : Type} (n : Nat) (h : List α) : List α :=
  (h.drop (h.length - n)).reverse

/-- Bumping a string-keyed defaultdict counter by one. -/
def bump_str (f : String → Nat) (key : String) : String → Nat :=
  fun k => if k = key then f k + 1 else f k

/-- Bumping a nat-keyed defaultdict counter by one. -/
def bump_nat (f : Nat → Nat) (key : Nat) : Nat → Nat :=
  fun k => if k = key then f k + 1 else f k

/-- update_analytics (app.py lines 174-192).  The returned flag is true
when the function raises KeyError: call_data is a plain dict, so the
lookups call_data["tier"] (line 183) and call_data["zip_code"] (line
185) raise when the key is absent, after the preceding statements have
already mutated the aggregates; the incompletely updated state is kept, as
the with-lock block performs no rollback. -/
def update_analytics (nowHour : Nat) (call_data : CallData) (s : SysState) :
    SysState × Bool :=
  let a0 := s.analytics
  let a1 := { a0 with total_calls := a0.total_calls + 1 }
  let a2 :=
    if call_data.status = "success" then
      { a1 with successful_calls := a1.successful_calls + 1 }
    else
      { a1 with failed_calls := a1.failed_calls + 1 }
  match call_data.tier with
  | none => ({ s with analytics := a2 }, true)
  | some tier_key =>
      let a3 := { a2 with tier_stats := bump_str a2.tier_stats tier_key }
      let a4 := { a3 with hourly_stats := bump_nat a3.hourly_stats nowHour }
      match call_data.zip_code with
      | none => ({ s with analytics := a4 }, true)
      | some zip_key =>
          let a5 := { a4 with zip_stats := bump_str a4.zip_stats zip_key }
          ({ s with
              analytics := a5,
              call_counts := commit_rate s.call_counts tier_key nowHour,
              call_history :=
                deque_append HISTORY_MAX s.call_history call_data }, false)

/-- The tier lookup loop of handle_call (app.py lines 450-454): iterate
the zip_data dictionary in its insertion order tier_1, tier_2, tier_3
(fixed at app.py line 114) and stop at the first tier whose ZIP set
contains the code. -/
def find_tier (zip_data : Tier → String → Bool) (zip_code : String) :
    Option Tier :=
  [Tier.tier_1, Tier.tier_2, Tier.tier_3].find? (fun t => zip_data t zip_code)

/-- Python str.strip(): drop whitespace from both ends. -/
def py_strip (s : String) : String :=
  let ws : Char → Bool := fun c => c = ' ' || c = '\t' || c = '\n' || c = '\r'
  String.mk (((s.toList.dropWhile ws).reverse.dropWhile ws).reverse)

/-- Python str.zfill(width): left-pad with zeros to the given width. -/
def py_zfill (width : Nat) (s : String) : String :=
  if s.length < width then
    String.mk (List.replicate (width - s.length) '0' ++ s.toList)
  else s

/-- Truthiness of an optional string request field: data.get returns
None for an absent key, and both None and the empty string are falsy. -/
def truthy : Option String → Bool
  | none => false
  | some s => !s.isEmpty

/-- Outcome of the outbound MarketCall request made by handle_call: a
2xx response with an optional returned id, a non-2xx response, or a
raised exception. -/
inductive ApiOutcome
  | success (marketcall_id : Option String)
  | api_error
  | exn
deriving DecidableEq

/-- The request body as seen through request.get_json(): none when the
body is not a JSON object (get_json gives a falsy value), otherwise the
caller_id and zip_code fields, each possibly absent. -/
def ReqBody : Type := Option (Option String × Option String)

/-- The early-exit recording cascade shared by the invalid-JSON and
missing-parameter paths of handle_call: record the error call_data;
when update_analytics raises (KeyError), the except block of the handler
(app.py lines 547-560) sets status to exception and records again, and
a second raise escapes the handler (modelled as a none HTTP status). -/
def record_error_path (nowHour : Nat) (call_data : CallData) (s : SysState)
    (okStatus : Nat) : SysState × Option Nat :=
  let r1 := update_analytics nowHour call_data s
  if r1.2 then
    let r2 := update_analytics nowHour { call_data with status := "exception" } r1.1
    (r2.1, if r2.2 then none else some 500)
  else
    (r1.1, some okStatus)

/-- handle_call (app.py lines 407-560), the /call-event handler, with
the collaborators as parameters: nowHour is the server-local hour used
by the rate limiter and the analytics, localHour resolves a timezone
name to its current hour for the business-hours gate, zip_data is the
loaded ZIP index, api is the outcome of the outbound bid request, and
body is the parsed request.  Returns the final state and the HTTP
status of the response; a none status means an exception escaped the
handler. -/
def handle_call (nowHour : Nat) (localHour : String → Option Nat)
    (zip_data : Tier → String → Bool) (api : ApiOutcome)
    (body : ReqBody) (s : SysState) : SysState × Option Nat :=
  let call_data : CallData := { status := "error" }
  match body with
  | none =>
      record_error_path nowHour call_data s 400
  | some (caller_id_raw, zip_code_raw) =>
      if !truthy caller_id_raw || !truthy zip_code_raw then
        record_error_path nowHour call_data s 400
      else
        let zip_code :=
          py_zfill 5 (py_strip (match zip_code_raw with
                                | some z => z
                                | none => ""))
        let caller_digits :=
          (match caller_id_raw with
           | some c => c
           | none => "").toList.filter Char.isDigit
        let caller_id :=
          if caller_digits.length = 10 then String.mk ('1' :: caller_digits)
          else String.mk caller_digits
        let call_data :=
          { call_data with caller_id := some caller_id,
                           zip_code := some zip_code }
        match find_tier zip_data zip_code with
        | none =>
            let call_data :=
              { call_data with status := "no_tier", tier := some ("none") }
            ((update_analytics nowHour call_data s).1, some 200)
        | some original_tier =>
            let bh := fun t => is_business_hours localHour t
            let rl := fun t => (check_rate_limit s.call_counts nowHour t).1
            let best :=
              (get_best_tier bh rl original_tier).getD (original_tier, false)
            let best_tier := best.1
            let fallback_used := best.2
            let call_data :=
              { call_data with
                  tier := some (tierName best_tier),
                  fallback_used := fallback_used,
                  business_hours_check := is_business_hours localHour best_tier,
                  rate_limit_check :=
                    (check_rate_limit s.call_counts nowHour best_tier).1,
                  offer_id := some (TIER_CONFIG best_tier).offer_id }
            match api with
            | .success mc_id =>
                let call_data :=
                  { call_data with status := "success", marketcall_id := mc_id }
                ((update_analytics nowHour call_data s).1, some 200)
            | .api_error =>
                let call_data :=
                  { call_data with status := "api_error", marketcall_id := none }
                ((update_analytics nowHour call_data s).1, some 502)
            | .exn =>
                let call_data := { call_data with status := "exception" }
                let r := update_analytics nowHour call_data s
                (r.1, if r.2 then none else some 500)

/-- Claim C6: the business-hours gate reports a tier open exactly when
the hour of the instant, converted to the configured timezone of the tier,
satisfies start <= hour < end (half-open interval). -/
theorem c6_business_hours_half_open (localHour : String → Option Nat)
    (t : Tier) (h : Nat)
    (hres : localHour (TIER_CONFIG t).timezone = some h) :
    (is_business_hours localHour t = true ↔
      ((TIER_CONFIG t).hours.hstart ≤ h ∧ h < (TIER_CONFIG t).hours.hend)) := by
  unfold is_business_hours
  rw [hres]
  simp

/-- Witness for C6: tier_2 has end hour 22, and at local hour 21 the
gate is open (the last open hour of a half-open window ending at 22). -/
theorem c6_business_hours_half_open_witness :
    is_business_hours (fun _ => some 21) Tier.tier_2 = true :=
  (c6_business_hours_half_open (fun _ => some 21) Tier.tier_2 21 rfl).2
    (by decide)

/-- Claim C7: when timezone resolution fails, the business-hours gate
returns open rather than closed. -/
theorem c7_gate_fails_open (localHour : String → Option Nat) (t : Tier)
    (hfail : localHour (TIER_CONFIG t).timezone = none) :
    is_business_hours localHour t = true := by
  unfold is_business_hours
  rw [hfail]

/-- Witness for C7 at tier_1 with a resolver that always fails. -/
theorem c7_gate_fails_open_witness :
    is_business_hours (fun _ => none) Tier.tier_1 = true :=
  c7_gate_fails_open (fun _ => none) Tier.tier_1 rfl

/-- Claim C4: the rate-limit probe leaves the counters unchanged, and
any number of probes before a single commit yields the same post-commit
counters as the single commit alone. -/
theorem c4_probe_is_pure (n : Nat) (counts : RateCounts) (nowHour : Nat)
    (t : Tier) :
    (check_rate_limit counts nowHour t).2 = counts ∧
    commit_rate ((fun c => (check_rate_limit c nowHour t).2)^[n] counts)
        (tierName t) nowHour =
      commit_rate counts (tierName t) nowHour := by
  refine ⟨rfl, ?_⟩
  rw [Function.iterate_fixed rfl n]

/-- Claim C10: a ZIP present in the ZIP sets of several tiers is assigned the
first matching tier in the fixed dictionary iteration order tier_1,
tier_2, tier_3. -/
theorem c10_first_tier_wins (zip_data : Tier → String → Bool) (z : String) :
    (zip_data Tier.tier_1 z = true →
        find_tier zip_data z = some Tier.tier_1) ∧
    (zip_data Tier.tier_1 z = false → zip_data Tier.tier_2 z = true →
        find_tier zip_data z = some Tier.tier_2) ∧
    (zip_data Tier.tier_1 z = false → zip_data Tier.tier_2 z = false →
        zip_data Tier.tier_3 z = true →
        find_tier zip_data z = some Tier.tier_3) := by
  refine ⟨fun h1 => ?_, fun h1 h2 => ?_, fun h1 h2 h3 => ?_⟩
  · simp [find_tier, List.find?, h1]
  · simp [find_tier, List.find?, h1, h2]
  · simp [find_tier, List.find?, h1, h2, h3]

/-- Witness for C10: a ZIP owned by every tier resolves to tier_1. -/
theorem c10_first_tier_wins_witness :
    find_tier (fun _ _ => true) ("12345") = some Tier.tier_1 :=
  (c10_first_tier_wins (fun _ _ => true) ("12345")).1 rfl

/-- Claim C1: when every tier along the fallback chain of the original
tier fails its gates, get_best_tier returns the original tier with
fallbackUsed false instead of dropping the call. -/
theorem c1_exhausted_chain_last_resort :
    ∀ (bh rl : Tier → Bool) (original_tier : Tier),
      (∀ t ∈ fallback_chain tierFallback 3 original_tier,
          (bh t && rl t) = false) →
      get_best_tier bh rl original_tier = some (original_tier, false) := by
  decide

/-- Witness for C1: with every tier closed, tier_1 is returned as a
last resort with fallbackUsed false. -/
theorem c1_exhausted_chain_last_resort_witness :
    get_best_tier (fun _ => false) (fun _ => true) Tier.tier_1 =
      some (Tier.tier_1, false) :=
  c1_exhausted_chain_last_resort (fun _ => false) (fun _ => true) Tier.tier_1
    (by decide)

/-- Claim C3: get_best_tier selects the first tier along the fallback
chain of the original tier passing both gates, with fallbackUsed false
exactly when that tier is the original one. -/
theorem c3_first_passing_tier :
    ∀ (bh rl : Tier → Bool) (original_tier t : Tier),
      (fallback_chain tierFallback 3 original_tier).find?
          (fun u => bh u && rl u) = some t →
      get_best_tier bh rl original_tier =
        some (t, decide (t ≠ original_tier)) := by
  decide

/-- Witness for C3: tier_1 closed with tier_2 open resolves to tier_2
with fallbackUsed true. -/
theorem c3_first_passing_tier_witness :
    (fallback_chain tierFallback 3 Tier.tier_1).find?
        (fun u => (!(u == Tier.tier_1)) && true) = some Tier.tier_2 ∧
    get_best_tier (fun u => !(u == Tier.tier_1)) (fun _ => true) Tier.tier_1 =
      some (Tier.tier_2, decide (Tier.tier_2 ≠ Tier.tier_1)) :=
  ⟨by decide,
   c3_first_passing_tier (fun u => !(u == Tier.tier_1)) (fun _ => true)
     Tier.tier_1 Tier.tier_2 (by decide)⟩

/-- Fuel monotonicity of the resolver loop: a result reached with some
fuel is preserved by one more unit of fuel. -/
theorem get_best_tier_loop_succ (cfg : Tier → Option Tier)
    (bh rl : Tier → Bool) (original_tier : Tier) :
    ∀ (fuel : Nat) (t : Tier) (r : Tier × Bool),
      get_best_tier_loop cfg bh rl original_tier fuel t = some r →
      get_best_tier_loop cfg bh rl original_tier (fuel + 1) t = some r := by
  intro fuel
  induction fuel with
  | zero =>
      intro t r h
      simp [get_best_tier_loop] at h
  | succ k ih =>
      intro t r h
      rw [get_best_tier_loop] at h ⊢
      cases hc : cfg t with
      | none =>
          rw [hc] at h
          simpa using h
      | some fb =>
          rw [hc] at h
          cases hg : (bh fb && rl fb) with
          | true => simpa [hg] using h
          | false =>
              simp only [hg, Bool.false_eq_true, if_false] at h ⊢
              exact ih fb r h

/-- Fuel monotonicity of the resolver loop, to any larger fuel. -/
theorem get_best_tier_loop_mono (cfg : Tier → Option Tier)
    (bh rl : Tier → Bool) (original_tier : Tier) (fuel n : Nat)
    (hle : fuel ≤ n) (t : Tier) (r : Tier × Bool)
    (h : get_best_tier_loop cfg bh rl original_tier fuel t = some r) :
    get_best_tier_loop cfg bh rl original_tier n t = some r := by
  induction n with
  | zero =>
      have : fuel = 0 := Nat.le_zero.mp hle
      subst this
      exact h
  | succ m ih =>
      rcases Nat.lt_or_ge fuel (m + 1) with hlt | hge
      · exact get_best_tier_loop_succ cfg bh rl original_tier m t r
          (ih (Nat.lt_succ_iff.mp hlt))
      · have : fuel = m + 1 := Nat.le_antisymm hle hge
        subst this
        exact h

/-- Under an acyclic fallback configuration the resolver returns a
definite answer within fuel three (the number of tiers). -/
theorem get_best_tier_gen_isSome :
    ∀ (cfg : Tier → Option Tier) (bh rl : Tier → Bool) (t : Tier),
      AcyclicFb cfg → (get_best_tier_gen cfg bh rl 3 t).isSome = true := by
  decide

/-- Claim C9: for every original tier, when the configured fallback
chains are acyclic (no tier reaches itself by following fallback
links), get_best_tier terminates: with fuel three it returns a definite
answer, and any further fuel leaves the answer unchanged, so the chain
walk never loops. -/
theorem c9_resolver_terminates (cfg : Tier → Option Tier)
    (bh rl : Tier → Bool) (t : Tier) (hacyc : AcyclicFb cfg) :
    (get_best_tier_gen cfg bh rl 3 t).isSome = true ∧
    ∀ n, 3 ≤ n →
      get_best_tier_gen cfg bh rl n t = get_best_tier_gen cfg bh rl 3 t := by
  refine ⟨get_best_tier_gen_isSome cfg bh rl t hacyc, fun n hn => ?_⟩
  unfold get_best_tier_gen
  cases hg : (bh t && rl t) with
  | true => simp [hg]
  | false =>
      simp only [hg, Bool.false_eq_true, if_false]
      have hs := get_best_tier_gen_isSome cfg bh rl t hacyc
      unfold get_best_tier_gen at hs
      rw [hg] at hs
      simp only [Bool.false_eq_true, if_false] at hs
      obtain ⟨r, hr⟩ := Option.isSome_iff_exists.mp hs
      rw [hr]
      exact get_best_tier_loop_mono cfg bh rl t 3 n hn t r hr

/-- Witness for C9: the concrete TIER_CONFIG chains are acyclic, and
resolving tier_1 with all gates closed yields the same definite answer
at fuel three and at fuel ten. -/
theorem c9_resolver_terminates_witness :
    AcyclicFb tierFallback ∧
    (get_best_tier_gen tierFallback (fun _ => false) (fun _ => false) 3
        Tier.tier_1).isSome = true ∧
    get_best_tier_gen tierFallback (fun _ => false) (fun _ => false) 10
        Tier.tier_1 =
      get_best_tier_gen tierFallback (fun _ => false) (fun _ => false) 3
        Tier.tier_1 :=
  ⟨by decide,
   (c9_resolver_terminates tierFallback (fun _ => false) (fun _ => false)
      Tier.tier_1 (by decide)).1,
   (c9_resolver_terminates tierFallback (fun _ => false) (fun _ => false)
      Tier.tier_1 (by decide)).2 10 (by omega)⟩

/-- Folding bounded-deque appends keeps exactly the last maxlen
elements of the inserted sequence. -/
theorem foldl_deque_append {α : Type} (m : Nat) :
    ∀ (rs : List α) (h : List α), h.length ≤ m →
      rs.foldl (deque_append m) h =
        (h ++ rs).drop (h.length + rs.length - m) := by
  intro rs
  induction rs with
  | nil =>
      intro h hle
      simp [Nat.sub_eq_zero_of_le hle]
  | cons x rs ih =>
      intro h hle
      show List.foldl (deque_append m) (deque_append m h x) rs = _
      rcases Nat.lt_or_ge h.length m with hlt | hge
      · have hd : deque_append m h x = h ++ [x] := by
          unfold deque_append
          rw [if_neg]
          simp only [List.length_append, List.length_cons, List.length_nil]
          omega
        rw [hd, ih (h ++ [x]) (by simp; omega)]
        have harith :
            (h ++ [x]).length + rs.length - m =
              h.length + (x :: rs).length - m := by
          simp
          omega
        rw [harith, List.append_assoc]
        simp
      · have hlen : h.length = m := Nat.le_antisymm hle hge
        have hd : deque_append m h x = (h ++ [x]).drop 1 := by
          unfold deque_append
          rw [if_pos]
          · congr 1
            simp
            omega
          · simp
            omega
        have hdlen : ((h ++ [x]).drop 1).length = m := by
          simp
          omega
        rw [hd, ih ((h ++ [x]).drop 1) (le_of_eq hdlen)]
        rw [← List.drop_append_of_le_length (by simp)]
        rw [List.drop_drop]
        have harith2 :
            1 + (((h ++ [x]).drop 1).length + rs.length - m) =
              h.length + (x :: rs).length - m := by
          rw [hdlen]
          simp
          omega
        rw [harith2, List.append_assoc]
        simp

/-- Claim C8: the call-history buffer never exceeds 10,000 records;
after inserting 10,001 records it holds exactly 10,000, with the
oldest evicted and the newest present; and the recent-history read
returns the records newest first (the buffer reversed, truncated). -/
theorem c8_history_bound :
    (∀ (rs : List CallData),
        (rs.foldl (deque_append HISTORY_MAX) []).length ≤ HISTORY_MAX) ∧
    ((List.range 10001).foldl (deque_append HISTORY_MAX) []).length =
        HISTORY_MAX ∧
    (0 : Nat) ∉ (List.range 10001).foldl (deque_append HISTORY_MAX) [] ∧
    (10000 : Nat) ∈ (List.range 10001).foldl (deque_append HISTORY_MAX) [] ∧
    (∀ (h : List CallData) (n : Nat), recent_calls n h = h.reverse.take n) := by
  have hbuf :
      (List.range 10001).foldl (deque_append HISTORY_MAX) [] =
        (List.range 10000).map Nat.succ := by
    rw [foldl_deque_append HISTORY_MAX (List.range 10001) [] (by simp)]
    simp only [List.nil_append, List.length_nil, List.length_range]
    rw [List.range_succ_eq_map]
    rfl
  refine ⟨?_, ?_, ?_, ?_, ?_⟩
  · intro rs
    rw [foldl_deque_append HISTORY_MAX rs [] (by simp)]
    simp
    omega
  · rw [hbuf]
    simp [HISTORY_MAX]
  · rw [hbuf]
    simp
  · rw [hbuf]
    simp only [List.mem_map, List.mem_range]
    exact ⟨9999, by omega, rfl⟩
  · intro h n
    unfold recent_calls
    exact List.take_reverse.symm

/-- Claim C2 (code bug): on the invalid-JSON early-exit path the
handler records no CallRecord at all.  update_analytics evaluates
call_data["tier"] (app.py line 183), which is absent on that path, so a
KeyError is raised after total_calls and failed_calls were already
incremented and before the history append; the except block retries
update_analytics, incrementing total_calls a second time, and the
second KeyError escapes the handler (HTTP status none).  The history
gains no record although the claim requires exactly one. -/
theorem c2_invalid_json_loses_record :
    ((handle_call 10 (fun _ => some 10) (fun _ _ => false) ApiOutcome.exn
        none {}).1.call_history,
     (handle_call 10 (fun _ => some 10) (fun _ _ => false) ApiOutcome.exn
        none {}).1.analytics.total_calls,
     (handle_call 10 (fun _ => some 10) (fun _ _ => false) ApiOutcome.exn
        none {}).1.analytics.failed_calls,
     (handle_call 10 (fun _ => some 10) (fun _ _ => false) ApiOutcome.exn
        none {}).2) = ([], 2, 2, none) := by
  decide

/-- Claim C5 counterexample: a recorded call for which no per-tier rate
counter is incremented.  A request whose ZIP is in no tier is recorded
(status no_tier, one history record, aggregates folded), but the
counter incremented is the sentinel bucket keyed "none", not a counter
of any tier chosen by a routing decision: all three tier counters stay
zero. -/
theorem c5_counterexample_no_tier_record :
    ((handle_call 10 (fun _ => some 10) (fun _ _ => false)
        (ApiOutcome.success none)
        (some (some "5551234567", some "99999")) {}).1.call_history.length,
     (handle_call 10 (fun _ => some 10) (fun _ _ => false)
        (ApiOutcome.success none)
        (some (some "5551234567", some "99999")) {}).1.call_counts
          ("tier_1") 10,
     (handle_call 10 (fun _ => some 10) (fun _ _ => false)
        (ApiOutcome.success none)
        (some (some "5551234567", some "99999")) {}).1.call_counts
          ("tier_2") 10,
     (handle_call 10 (fun _ => some 10) (fun _ _ => false)
        (ApiOutcome.success none)
        (some (some "5551234567", some "99999")) {}).1.call_counts
          ("tier_3") 10,
     (handle_call 10 (fun _ => some 10) (fun _ _ => false)
        (ApiOutcome.success none)
        (some (some "5551234567", some "99999")) {}).1.call_counts
          ("none") 10) = (1, 0, 0, 0, 1) := by
  decide

/-- Claim C5 as amended: for every call record that update_analytics
records in full (its tier and zip_code keys are present), exactly one
rate counter is incremented — the bucket keyed by the tier
field of the record (the chosen tier for routed calls, the sentinel none key for
unrouted ones), at the current hour — by exactly one; and no operation
ever decrements a rate counter. -/
theorem c5_one_bucket_incremented :
    (∀ (nowHour : Nat) (cd : CallData) (s : SysState) (tk z : String),
        cd.tier = some tk → cd.zip_code = some z →
        ((update_analytics nowHour cd s).1.call_counts tk nowHour =
            s.call_counts tk nowHour + 1 ∧
         ∀ (k : String) (h : Nat), ¬(k = tk ∧ h = nowHour) →
            (update_analytics nowHour cd s).1.call_counts k h =
              s.call_counts k h)) ∧
    (∀ (nowHour : Nat) (cd : CallData) (s : SysState) (k : String) (h : Nat),
        s.call_counts k h ≤ (update_analytics nowHour cd s).1.call_counts k h) := by
  constructor
  · intro nowHour cd s tk z htier hzip
    constructor
    · simp [update_analytics, htier, hzip, commit_rate]
    · intro k h hne
      simp [update_analytics, htier, hzip, commit_rate, hne]
  · intro nowHour cd s k h
    cases htier : cd.tier with
    | none => simp [update_analytics, htier]
    | some tk =>
        cases hzip : cd.zip_code with
        | none => simp [update_analytics, htier, hzip]
        | some z =>
            simp only [update_analytics, htier, hzip, commit_rate]
            split
            · omega
            · exact le_refl _

/-- Witness for the amended C5 at a concrete routed record. -/
theorem c5_one_bucket_incremented_witness :
    (update_analytics 10
        { status := "success", tier := some ("tier_1"),
          zip_code := some ("99999") } ({} : SysState)).1.call_counts
      ("tier_1") 10 =
      ({} : SysState).call_counts ("tier_1") 10 + 1 :=
  (c5_one_bucket_incremented.1 10
      { status := "success", tier := some ("tier_1"),
        zip_code := some ("99999") } {} ("tier_1") ("99999") rfl rfl).1
